import Mathlib

/-!
Verification development for the bulk-ingestion pipeline of the
AnginatAuthBackend repository.

The definitions below are a shallow embedding of the JavaScript sources:
  * `src/src/models/bulkUploadJob.js` — the `BulkUploadJob` record, its
    `updateProgress` and `addError` instance methods;
  * `src/src/services/bulkUploadService.js` — `extractCode`, `processBatch`,
    `processCSV`, `processExcel`, `processBulkUpload`;
  * the product controller — `cancelBulkUpload`.

Machine integers are modelled by `Nat` (all counters are small and
non-negative in the source).  The durable identifier store (`AuthCode`
collection) is modelled by a list of code strings with a global uniqueness
constraint; `insertMany {ordered:false}` is modelled by a sequential pass
that rejects entries whose code is already present (MongoDB duplicate-key
error 11000, reported through `writeErrors`).  Asynchronous steps are
sequentialized exactly in the order the source awaits them (the CSV parser
is paused during each batch flush, so the pipeline is a sequential fold
over the parsed rows).  A possible non-duplicate failure of one bulk write
(e.g. a storage outage) is injected through an explicit fault schedule,
one optional fault per `processBatch` call.
-/

namespace Anginat

/-- Job status enumeration of the `BulkUploadJob` schema. -/
inductive Status
  | pending
  | processing
  | completed
  | failedSt
  | cancelled
deriving DecidableEq, Repr

/-- The display name used in API messages (`Cannot cancel X job`). -/
def Status.name : Status → String
  | .pending => "pending"
  | .processing => "processing"
  | .completed => "completed"
  | .failedSt => "failed"
  | .cancelled => "cancelled"

/-- The `progress` sub-document of `BulkUploadJob`. -/
structure Progress where
  total : Nat
  processed : Nat
  successful : Nat
  failedN : Nat
  duplicates : Nat
  percentage : Nat
deriving DecidableEq, Repr

/-- One entry of the `errors` array of a job: `{row, code, error}`. -/
structure JobError where
  row : Nat
  code : String
  errMsg : String
deriving DecidableEq, Repr

/-- The fields of a `BulkUploadJob` document that the pipeline reads or
writes (status, progress, errors, and the `metadata.maxErrors` cap). -/
structure Job where
  status : Status
  progress : Progress
  errors : List JobError
  maxErrors : Nat
deriving DecidableEq, Repr

/-- A freshly created job, as built by the upload controller:
status `pending`, all progress counters at their schema defaults (0),
empty error list, default error cap 100. -/
def freshJob : Job :=
  { status := .pending
    progress := { total := 0, processed := 0, successful := 0,
                  failedN := 0, duplicates := 0, percentage := 0 }
    errors := []
    maxErrors := 100 }

/-- `Math.round(processed / total * 100)` with exact rational arithmetic:
`round(100*p/t) = ⌊(200*p + t) / (2*t)⌋` for `t > 0` (JS `Math.round`
rounds halves up, which for non-negative arguments is `⌊x + 1/2⌋`). -/
def jsRound100 (p t : Nat) : Nat :=
  (200 * p + t) / (2 * t)

/-- The argument of `updateProgress`: a partial assignment of progress
fields (`Object.assign(this.progress, update)`); `none` means the field is
absent from the update object. -/
structure ProgressUpdate where
  total : Option Nat
  processed : Option Nat
  successful : Option Nat
  failedN : Option Nat
  duplicates : Option Nat
  percentage : Option Nat
deriving DecidableEq, Repr

/-- An update object with no fields set. -/
def ProgressUpdate.empty : ProgressUpdate :=
  ⟨none, none, none, none, none, none⟩

/-- `Object.assign(this.progress, update)`. -/
def applyAssign (p : Progress) (u : ProgressUpdate) : Progress :=
  { total := u.total.getD p.total
    processed := u.processed.getD p.processed
    successful := u.successful.getD p.successful
    failedN := u.failedN.getD p.failedN
    duplicates := u.duplicates.getD p.duplicates
    percentage := u.percentage.getD p.percentage }

/-- `bulkUploadJobSchema.methods.updateProgress`: assign the update, then
recompute `percentage = Math.round(processed/total*100)` only when
`total > 0` (otherwise `percentage` keeps its previous value), then save. -/
def updateProgress (p : Progress) (u : ProgressUpdate) : Progress :=
  let q := applyAssign p u
  if q.total > 0 then { q with percentage := jsRound100 q.processed q.total }
  else q

/-- `bulkUploadJobSchema.methods.addError`: push the entry only while the
list is below the `metadata.maxErrors` cap. -/
def addError (j : Job) (e : JobError) : Job :=
  if j.errors.length < j.maxErrors then { j with errors := j.errors ++ [e] }
  else j

/-! ### Row extraction (`extractCode`) -/

/-- A parsed row: an ordered association of column header to cell value,
as produced by `csv-parse {columns:true}` or `XLSX.utils.sheet_to_json`. -/
abbrev Row := List (String × String)

/-- `row.k` access: the value under header `k`, if the column exists. -/
def rowLookup (row : Row) (k : String) : Option String :=
  (row.find? (fun kv => kv.1 == k)).map (fun kv => kv.2)

/-- `Object.values(row)[0]`: the first cell of the row. -/
def firstValue (row : Row) : Option String :=
  row.head?.map (fun kv => kv.2)

/-- The prioritized column aliases tried by `extractCode`. -/
def codeAliases : List String :=
  ["code", "Code", "CODE", "auth_code", "authCode", "AuthCode",
   "authentication_code", "Authentication Code"]

/-- JS truthiness of an optional string cell: `undefined` and the empty
string are falsy, every other string is truthy. -/
def truthy : Option String → Bool
  | none => false
  | some s => !(s == "")

/-- The candidate selected by the JS short-circuit chain
`row.code || row.Code || ... || Object.values(row)[0]` followed by the
`if (!code) return null` guard: the first truthy value among the aliases
and the first cell, or `none` when every one of them is falsy. -/
def candidateOf (row : Row) : Option String :=
  (codeAliases.map (rowLookup row) ++ [firstValue row]).findSome?
    (fun o => if truthy o then o else none)

/-- Whitespace stripped by JS `String.prototype.trim` (the characters
relevant to this code base: space, tab, newline, carriage return). -/
def isWsChar (c : Char) : Bool :=
  c == ' ' || c == '\t' || c == '\n' || c == '\r'

/-- JS `code.toString().trim()`: strip leading and trailing whitespace. -/
def jsTrim (s : String) : String :=
  ⟨((s.data.dropWhile isWsChar).reverse.dropWhile isWsChar).reverse⟩

/-- Outcome of `extractCode` for one row. -/
inductive ExtractResult
  | missing
  | lengthError (trimmed : String)
  | extracted (code : String)
deriving DecidableEq, Repr

/-- Validation applied to a selected candidate: trim, then reject a
trimmed length outside `[3, 100]` (the thrown
`Code length must be between 3-100 characters`). -/
def validateCandidate : Option String → ExtractResult
  | none => .missing
  | some c =>
    let t := jsTrim c
    if t.length < 3 || t.length > 100 then .lengthError t
    else .extracted t

/-- `bulkUploadService.extractCode`: select the candidate via the alias
chain, return `missing` when it is falsy, otherwise trim and validate. -/
def extractCode (row : Row) : ExtractResult :=
  validateCandidate (candidateOf row)

/-! ### The durable identifier store and `processBatch` -/

/-- The `AuthCode` collection, abstracted to the set of stored code
strings (brand/product references do not influence any claim). -/
abbrev Store := List String

/-- One accumulated batch entry: `{code, rowNumber}`. -/
structure BatchItem where
  code : String
  rowNumber : Nat
deriving DecidableEq, Repr

/-- The `{processed, successful, failed, duplicates}` record returned by
`processBatch` for one batch. -/
structure BatchStats where
  processed : Nat
  successful : Nat
  failedN : Nat
  duplicates : Nat
deriving DecidableEq, Repr

/-- The pre-insertion partition of a batch (`AuthCode.find` on the batch
codes followed by the filter loop): returns the queued new code strings in
batch order, the count of already-present candidates, and their
`Duplicate code` row errors in batch order. -/
def partitionBatch (store : Store) : List BatchItem → List String × Nat × List JobError
  | [] => ([], 0, [])
  | item :: rest =>
    let r := partitionBatch store rest
    if store.contains item.code then
      (r.1, r.2.1 + 1,
        { row := item.rowNumber, code := item.code, errMsg := "Duplicate code" } :: r.2.2)
    else
      (item.code :: r.1, r.2.1, r.2.2)

/-- `AuthCode.insertMany(..., {ordered:false})` over the queued codes, in
write order: an entry whose code is already present (including one
inserted earlier in the same call) is rejected by the unique index and
reported as a write error; every other entry is inserted.  Returns the
store after the call, the number of inserted entries, and the number of
duplicate-key write errors. -/
def insertManyRun (store : Store) : List String → Store × Nat × Nat
  | [] => (store, 0, 0)
  | c :: rest =>
    if store.contains c then
      let r := insertManyRun store rest
      (r.1, r.2.1, r.2.2 + 1)
    else
      let r := insertManyRun (c :: store) rest
      (r.1, r.2.1 + 1, r.2.2)

/-- The `try { insertMany } catch` block of `processBatch`, for a queue of
`newCodes`.  `fault` injects a non-duplicate-key failure of the bulk write
(e.g. a storage outage): such an error does not carry `code === 11000`
with `writeErrors` and is rethrown by the source.  When every write error
is a duplicate key (error code 11000), the source recovers with
`insertedCount = newCodes.length - writeErrors.length` and adds
`writeErrors.length` to the duplicate count.  `insertMany` is only called
when the queue is non-empty.  Returns `(store, insertedCount, extraDuplicates)`. -/
def runInsert (store : Store) (newCodes : List String) (fault : Option String) :
    Except String (Store × Nat × Nat) :=
  match newCodes with
  | [] => .ok (store, 0, 0)
  | _ :: _ =>
    match fault with
    | some msg => .error msg
    | none =>
      let r := insertManyRun store newCodes
      if r.2.2 = 0 then .ok (r.1, r.2.1, 0)
      else .ok (r.1, newCodes.length - r.2.2, r.2.2)

/-- `bulkUploadService.processBatch`: look up existing codes, partition
into duplicates and queued inserts, bulk-insert the queue, then add the
batch deltas to the persisted job progress via `updateProgress`.  Returns
the batch stats, the `Duplicate code` row errors pushed onto the shared
in-memory error list, the store after the write, and the saved job.  A
non-recovered write error is wrapped as `Batch processing error: ...` by
the surrounding catch and rethrown; in that case the job record is not
touched. -/
def processBatch (store : Store) (codes : List BatchItem) (job : Job)
    (fault : Option String) :
    Except String (BatchStats × List JobError × Store × Job) :=
  let part := partitionBatch store codes
  match runInsert store part.1 fault with
  | .error msg => .error ("Batch processing error: " ++ msg)
  | .ok r =>
    let insertedCount := r.2.1
    let duplicatesCount := part.2.1 + r.2.2
    let processed := codes.length
    let successful := insertedCount
    let failedN := codes.length - insertedCount - duplicatesCount
    let u : ProgressUpdate :=
      { ProgressUpdate.empty with
        processed := some (job.progress.processed + processed)
        successful := some (job.progress.successful + successful)
        failedN := some (job.progress.failedN + failedN)
        duplicates := some (job.progress.duplicates + duplicatesCount) }
    let job' := { job with progress := updateProgress job.progress u }
    .ok ({ processed := processed, successful := successful,
           failedN := failedN, duplicates := duplicatesCount },
         part.2.2, r.1, job')

/-! ### The streaming pipeline (`processCSV` / `processExcel`)

The CSV parser is paused while a batch is being flushed and resumed
afterwards, so the pipeline is a sequential fold over the parsed rows; the
Excel pipeline awaits each flush inside its `for` loop.  `PipeState`
carries the local variables of `processCSV`/`processExcel` (`codes`,
`errors`, the four counters, `rowNumber`), the store, the in-memory job
document, the per-flush fault schedule, and the list of job snapshots at
each persistence write. -/

structure PipeState where
  codes : List BatchItem
  errors : List JobError
  processedCount : Nat
  successfulCount : Nat
  failedCount : Nat
  duplicatesCount : Nat
  rowNumber : Nat
  store : Store
  job : Job
  faults : List (Option String)
  trace : List Job
deriving DecidableEq, Repr

/-- Initial pipeline state: empty batch, empty error list, zero counters. -/
def initState (store : Store) (job : Job) (faults : List (Option String)) :
    PipeState :=
  { codes := [], errors := [], processedCount := 0, successfulCount := 0,
    failedCount := 0, duplicatesCount := 0, rowNumber := 0,
    store := store, job := job, faults := faults, trace := [] }

/-- One batch flush: run `processBatch` on the accumulated `codes`, add
the returned stats to the local counters, clear the batch, and record the
saved job in the trace.  A `processBatch` error rejects the pipeline
promise (`.catch(reject)`). -/
def flushBatch (st : PipeState) : PipeState × Option String :=
  match processBatch st.store st.codes st.job (st.faults.headD none) with
  | .error e => ({ st with faults := st.faults.tail }, some e)
  | .ok r =>
    ({ st with
        codes := []
        errors := st.errors ++ r.2.1
        processedCount := st.processedCount + r.1.processed
        successfulCount := st.successfulCount + r.1.successful
        failedCount := st.failedCount + r.1.failedN
        duplicatesCount := st.duplicatesCount + r.1.duplicates
        store := r.2.2.1
        job := r.2.2.2
        faults := st.faults.tail
        trace := st.trace ++ [r.2.2.2] }, none)

/-- The error message recorded for a row whose extraction throws the
length validation error. -/
def lengthErrMsg : String := "Code length must be between 3-100 characters"

/-- The `parser.on('data')` handler of `processCSV` for one row: number
the row, extract the code; a falsy code records `Empty or missing code`
and increments the local failed counter, a valid code joins the batch; a
thrown length error is caught, recorded, and skips the batch-size check;
otherwise the batch is flushed once it reaches `batchSize`. -/
def csvStep (batchSize : Nat) (st : PipeState) (row : Row) :
    PipeState × Option String :=
  let rn := st.rowNumber + 1
  match extractCode row with
  | .lengthError _ =>
    ({ st with
        rowNumber := rn
        failedCount := st.failedCount + 1
        errors := st.errors ++ [{ row := rn, code := "", errMsg := lengthErrMsg }] },
     none)
  | .missing =>
    let st' := { st with
        rowNumber := rn
        failedCount := st.failedCount + 1
        errors := st.errors ++ [{ row := rn, code := "", errMsg := "Empty or missing code" }] }
    if st'.codes.length ≥ batchSize then flushBatch st' else (st', none)
  | .extracted c =>
    let st' := { st with
        rowNumber := rn
        codes := st.codes ++ [{ code := c, rowNumber := rn }] }
    if st'.codes.length ≥ batchSize then flushBatch st' else (st', none)

/-- The CSV data loop: fold `csvStep` over the rows, stopping at the
first rejected flush. -/
def csvGo (batchSize : Nat) : List Row → PipeState → PipeState × Option String
  | [], st => (st, none)
  | row :: rest, st =>
    match csvStep batchSize st row with
    | (st', none) => csvGo batchSize rest st'
    | (st', some e) => (st', some e)

/-- The `parser.on('end')` handler: flush the remaining partial batch, if
any. -/
def csvFinish (st : PipeState) : PipeState × Option String :=
  if st.codes.length > 0 then flushBatch st else (st, none)

/-- `bulkUploadService.processCSV`: the data loop followed by the final
flush of the remainder. -/
def runCSV (batchSize : Nat) (rows : List Row) (st0 : PipeState) :
    PipeState × Option String :=
  match csvGo batchSize rows st0 with
  | (st, none) => csvFinish st
  | (st, some e) => (st, some e)

/-- One iteration of the Excel `for` loop, at index `i` (reported row
number `i + 2`): like `csvStep`, but the batch is also flushed at the last
index — unless the row threw the length error, in which case the `catch`
skips the flush condition entirely. -/
def excelStep (batchSize : Nat) (isLast : Bool) (rn : Nat) (st : PipeState)
    (row : Row) : PipeState × Option String :=
  match extractCode row with
  | .lengthError _ =>
    ({ st with
        failedCount := st.failedCount + 1
        errors := st.errors ++ [{ row := rn, code := "", errMsg := lengthErrMsg }] },
     none)
  | .missing =>
    let st' := { st with
        failedCount := st.failedCount + 1
        errors := st.errors ++ [{ row := rn, code := "", errMsg := "Empty or missing code" }] }
    if st'.codes.length ≥ batchSize || isLast then flushBatch st' else (st', none)
  | .extracted c =>
    let st' := { st with codes := st.codes ++ [{ code := c, rowNumber := rn }] }
    if st'.codes.length ≥ batchSize || isLast then flushBatch st' else (st', none)

/-- The Excel row loop from index `i`. -/
def excelGo (batchSize : Nat) : List Row → Nat → PipeState → PipeState × Option String
  | [], _, st => (st, none)
  | row :: rest, i, st =>
    match excelStep batchSize rest.isEmpty (i + 2) st row with
    | (st', none) => excelGo batchSize rest (i + 1) st'
    | (st', some e) => (st', some e)

/-- The `{ total: rows.length }` update object passed by `processExcel`. -/
def setTotalUpdate (n : Nat) : ProgressUpdate :=
  { ProgressUpdate.empty with total := some n }

/-- `await job.updateProgress({ total: rows.length })`. -/
def setTotalJob (j : Job) (n : Nat) : Job :=
  { j with progress := updateProgress j.progress (setTotalUpdate n) }

/-- `bulkUploadService.processExcel`: persist `total = rows.length` via
`updateProgress`, then run the row loop; any error is wrapped as
`Excel processing error: ...` by the surrounding catch. -/
def runExcel (batchSize : Nat) (rows : List Row) (st0 : PipeState) :
    PipeState × Option String :=
  let jobT := setTotalJob st0.job rows.length
  let st1 := { st0 with job := jobT, trace := st0.trace ++ [jobT] }
  match excelGo batchSize rows 0 st1 with
  | (st, none) => (st, none)
  | (st, some e) => (st, some ("Excel processing error: " ++ e))

/-- The `{processed, successful, failed, duplicates, errors}` object the
pipeline resolves with; `errors` is truncated to the first `maxErrors`
entries (`errors.slice(0, this.MAX_ERRORS)`). -/
structure PipelineResult where
  processed : Nat
  successful : Nat
  failedN : Nat
  duplicates : Nat
  errors : List JobError
deriving DecidableEq, Repr

/-- Assemble the resolved pipeline result from the final state. -/
def mkResult (maxErrors : Nat) (st : PipeState) : PipelineResult :=
  { processed := st.processedCount, successful := st.successfulCount,
    failedN := st.failedCount, duplicates := st.duplicatesCount,
    errors := st.errors.take maxErrors }

/-! ### The orchestrator (`processBulkUpload`) -/

/-- The declared file kind dispatched on by the orchestrator. -/
inductive FileKind
  | csv
  | xlsx
deriving DecidableEq, Repr

/-- Outcome of one orchestrator run: the final persisted job, the store,
the resolved result (`none` when the run failed), and the job snapshot at
every persistence write, in order. -/
structure OrchResult where
  job : Job
  store : Store
  result : Option PipelineResult
  trace : List Job
deriving DecidableEq, Repr

/-- `bulkUploadService.processBulkUpload` (brand existence and file
cleanup are external collaborators and are assumed to succeed): set
status `processing` and save, dispatch to the pipeline for the file kind,
then either mark the job `completed` and return the result, or — on a
rejected pipeline — mark it `failed`, append the single
`{row:0, code:'SYSTEM_ERROR'}` entry via `addError`, and save.
The source's constants are `batchSize = 1000` and `maxErrors = 100`;
both are parameters here. -/
def processBulkUpload (kind : FileKind) (batchSize maxErrors : Nat)
    (rows : List Row) (store : Store) (faults : List (Option String))
    (job0 : Job) : OrchResult :=
  let job1 := { job0 with status := Status.processing }
  let st0 := initState store job1 faults
  let run := match kind with
    | .csv => runCSV batchSize rows st0
    | .xlsx => runExcel batchSize rows st0
  match run with
  | (st, none) =>
    let jobC := { st.job with status := Status.completed }
    { job := jobC, store := st.store, result := some (mkResult maxErrors st),
      trace := job1 :: (st.trace ++ [jobC]) }
  | (st, some msg) =>
    let jobF := addError { st.job with status := Status.failedSt }
      { row := 0, code := "SYSTEM_ERROR", errMsg := msg }
    { job := jobF, store := st.store, result := none,
      trace := job1 :: (st.trace ++ [jobF]) }

/-! ### The cancel endpoint (`cancelBulkUpload`) -/

/-- The externally visible outcome of a cancel request. -/
inductive CancelOutcome
  | notFound
  | invalidState (msg : String)
  | accepted
deriving DecidableEq, Repr

/-- `productController.cancelBulkUpload` (ownership check passed): a
missing job is a 404; a job whose status is not `pending` or `processing`
is rejected with 400 `Cannot cancel X job` before any field is written;
otherwise the status is set to `cancelled` and saved.  Returns the
outcome and the stored job after the request. -/
def cancelBulkUpload (job : Option Job) : CancelOutcome × Option Job :=
  match job with
  | none => (.notFound, none)
  | some j =>
    if j.status = Status.pending ∨ j.status = Status.processing then
      (.accepted, some { j with status := Status.cancelled })
    else
      (.invalidState ("Cannot cancel " ++ j.status.name ++ " job"), some j)

/-! ### A cancel request interleaved with a running pipeline

`DbJob` is the persisted job document as seen by other requests: the
pipeline's start-up save writes `status = processing`; every flush saves
only the modified `progress` path (`updateProgress` touches nothing
else); the final save writes the modified `status` path.  A concurrent
cancel request writes `status = cancelled` directly.  Since `csvGo` over
`rows1 ++ rows2` equals `csvGo` over `rows2` started from the state after
`rows1`, running the two halves separately with the cancel write in
between is exactly the source's interleaving in which the cancel request
lands between two batches. -/

structure DbJob where
  status : Status
  progress : Progress
deriving DecidableEq, Repr

/-- A CSV run during which a cancel request lands between the processing
of `rows1` and of `rows2`.  Returns the persisted job states in write
order (initial save, state when the cancel lands, the cancel write,
state after the remaining rows, final save). -/
def runCSVCancelBetween (batchSize : Nat) (rows1 rows2 : List Row)
    (store : Store) (job0 : Job) : List DbJob :=
  let job1 := { job0 with status := Status.processing }
  let db0 : DbJob := { status := Status.processing, progress := job1.progress }
  let st0 := initState store job1 []
  match csvGo batchSize rows1 st0 with
  | (stA, some _) =>
    [db0, { status := Status.failedSt, progress := stA.job.progress }]
  | (stA, none) =>
    let dbA : DbJob := { status := db0.status, progress := stA.job.progress }
    let dbC : DbJob := { dbA with status := Status.cancelled }
    match runCSV batchSize rows2 stA with
    | (stB, some _) =>
      [db0, dbA, dbC, { status := Status.failedSt, progress := stB.job.progress }]
    | (stB, none) =>
      let dbB : DbJob := { dbC with progress := stB.job.progress }
      let dbF : DbJob := { dbB with status := Status.completed }
      [db0, dbA, dbC, dbB, dbF]

/-! ### Invariants of the persisted job record -/

/-- The counter-balance invariant of the spec:
`processed == successful + failed + duplicates`. -/
def progressInv (p : Progress) : Prop :=
  p.processed = p.successful + p.failedN + p.duplicates

/-- The percentage invariant of the spec:
`percentage == round(processed/total*100)` when `total > 0`, else `0`. -/
def pctInv (p : Progress) : Prop :=
  p.percentage = if p.total > 0 then jsRound100 p.processed p.total else 0

/-- Invariant of a persisted job snapshot during a run whose error list is
`E` and whose `total` field is `T`. -/
def jobInv (E : List JobError) (T : Nat) (j : Job) : Prop :=
  progressInv j.progress ∧ pctInv j.progress ∧ j.errors = E ∧ j.progress.total = T

/-- Invariant of a pipeline state: the in-memory job document and every
recorded persisted snapshot satisfy `jobInv`. -/
def stInv (E : List JobError) (T : Nat) (st : PipeState) : Prop :=
  jobInv E T st.job ∧ ∀ j ∈ st.trace, jobInv E T j

theorem partitionBatch_len (store : Store) :
    ∀ codes : List BatchItem,
      (partitionBatch store codes).1.length + (partitionBatch store codes).2.1
        = codes.length := by
  intro codes
  induction codes with
  | nil => rfl
  | cons item rest ih =>
    by_cases h : item.code ∈ store
    · simp [partitionBatch, h]
      omega
    · simp [partitionBatch, h]
      omega

theorem insertManyRun_len :
    ∀ (l : List String) (store : Store),
      (insertManyRun store l).2.1 + (insertManyRun store l).2.2 = l.length := by
  intro l
  induction l with
  | nil => intro store; rfl
  | cons c rest ih =>
    intro store
    by_cases h : c ∈ store
    · have hr := ih store
      simp [insertManyRun, h]
      omega
    · have hr := ih (c :: store)
      simp [insertManyRun, h]
      omega

theorem runInsert_ok_len {store : Store} {newCodes : List String}
    {f : Option String} {r : Store × Nat × Nat}
    (h : runInsert store newCodes f = .ok r) :
    r.2.1 + r.2.2 = newCodes.length := by
  cases newCodes with
  | nil =>
    simp only [runInsert, Except.ok.injEq] at h
    subst h
    rfl
  | cons c rest =>
    cases f with
    | some msg => simp [runInsert] at h
    | none =>
      have hlen := insertManyRun_len (c :: rest) store
      simp only [runInsert] at h
      split at h
      next hz =>
        simp only [Except.ok.injEq] at h
        subst h
        simp only [List.length_cons] at hlen ⊢
        omega
      next hz =>
        simp only [Except.ok.injEq] at h
        subst h
        simp only [List.length_cons] at hlen ⊢
        omega

theorem processBatch_ok_spec {store : Store} {codes : List BatchItem} {job : Job}
    {f : Option String} {stats : BatchStats} {es : List JobError}
    {store' : Store} {job' : Job}
    (h : processBatch store codes job f = .ok (stats, es, store', job')) :
    stats.processed = codes.length ∧
    stats.failedN = 0 ∧
    stats.processed = stats.successful + stats.failedN + stats.duplicates ∧
    job'.status = job.status ∧
    job'.errors = job.errors ∧
    job'.maxErrors = job.maxErrors ∧
    job'.progress.total = job.progress.total ∧
    job'.progress.processed = job.progress.processed + stats.processed ∧
    job'.progress.successful = job.progress.successful + stats.successful ∧
    job'.progress.failedN = job.progress.failedN + stats.failedN ∧
    job'.progress.duplicates = job.progress.duplicates + stats.duplicates ∧
    (job.progress.total = 0 → job'.progress.percentage = job.progress.percentage) ∧
    (0 < job.progress.total →
      job'.progress.percentage = jsRound100 job'.progress.processed job'.progress.total) := by
  have hp := partitionBatch_len store codes
  simp only [processBatch] at h
  split at h
  · simp at h
  next r heq =>
    have hr := runInsert_ok_len heq
    simp only [Except.ok.injEq, Prod.mk.injEq] at h
    obtain ⟨hstats, hes, hstore, hjob⟩ := h
    subst hstats hes hstore hjob
    refine ⟨rfl, by simp; omega, by simp; omega, rfl, rfl, rfl, ?_, ?_, ?_, ?_, ?_, ?_, ?_⟩ <;>
      simp [updateProgress, applyAssign, ProgressUpdate.empty] <;>
      split <;> simp_all <;> omega

theorem jobInv_after_batch {E : List JobError} {T : Nat} {store : Store}
    {codes : List BatchItem} {job : Job} {f : Option String} {stats : BatchStats}
    {es : List JobError} {store' : Store} {job' : Job}
    (heq : processBatch store codes job f = .ok (stats, es, store', job'))
    (hj : jobInv E T job) : jobInv E T job' := by
  obtain ⟨_, _, h3, _, h5, _, h7, h8, h9, h10, h11, h12, h13⟩ :=
    processBatch_ok_spec heq
  obtain ⟨hpi, hpc, herr, htot⟩ := hj
  refine ⟨?_, ?_, ?_, ?_⟩
  · unfold progressInv at hpi ⊢
    omega
  · unfold pctInv at hpc ⊢
    rcases Nat.eq_zero_or_pos job.progress.total with hz | hz
    · rw [h7, hz, h12 hz]
      rw [hz] at hpc
      simpa using hpc
    · rw [h13 hz, h7]
      simp [hz]
  · rw [h5, herr]
  · rw [h7, htot]

theorem flushBatch_inv {E : List JobError} {T : Nat} {st st' : PipeState}
    {e : Option String} (h : flushBatch st = (st', e)) (hinv : stInv E T st) :
    stInv E T st' := by
  obtain ⟨hj, ht⟩ := hinv
  unfold flushBatch at h
  split at h
  next msg heq =>
    injection h with h1 h2
    subst h1
    exact ⟨hj, ht⟩
  next r heq =>
    obtain ⟨stats, es, store2, job2⟩ := r
    injection h with h1 h2
    subst h1
    refine ⟨jobInv_after_batch heq hj, ?_⟩
    intro j hjmem
    simp only [List.mem_append, List.mem_singleton] at hjmem
    rcases hjmem with hjmem | hjmem
    · exact ht j hjmem
    · subst hjmem
      exact jobInv_after_batch heq hj

theorem csvStep_inv {E : List JobError} {T : Nat} {b : Nat} {st : PipeState}
    {row : Row} {st' : PipeState} {e : Option String}
    (h : csvStep b st row = (st', e)) (hinv : stInv E T st) : stInv E T st' := by
  unfold csvStep at h
  split at h
  · injection h with h1 h2
    subst h1
    exact ⟨hinv.1, hinv.2⟩
  · dsimp only at h
    split at h
    · exact flushBatch_inv h ⟨hinv.1, hinv.2⟩
    · injection h with h1 h2
      subst h1
      exact ⟨hinv.1, hinv.2⟩
  · dsimp only at h
    split at h
    · exact flushBatch_inv h ⟨hinv.1, hinv.2⟩
    · injection h with h1 h2
      subst h1
      exact ⟨hinv.1, hinv.2⟩

theorem csvGo_inv {E : List JobError} {T : Nat} {b : Nat} :
    ∀ (rows : List Row) (st st' : PipeState) (e : Option String),
      csvGo b rows st = (st', e) → stInv E T st → stInv E T st' := by
  intro rows
  induction rows with
  | nil =>
    intro st st' e h hinv
    injection h with h1 h2
    subst h1
    exact hinv
  | cons row rest ih =>
    intro st st' e h hinv
    unfold csvGo at h
    split at h
    next st1 heq =>
      exact ih st1 st' e h (csvStep_inv heq hinv)
    next st1 e0 heq =>
      injection h with h1 h2
      subst h1
      exact csvStep_inv heq hinv

theorem csvFinish_inv {E : List JobError} {T : Nat} {st st' : PipeState}
    {e : Option String} (h : csvFinish st = (st', e)) (hinv : stInv E T st) :
    stInv E T st' := by
  unfold csvFinish at h
  split at h
  · exact flushBatch_inv h hinv
  · injection h with h1 h2
    subst h1
    exact hinv

theorem runCSV_inv {E : List JobError} {T : Nat} {b : Nat} {rows : List Row}
    {st0 st' : PipeState} {e : Option String}
    (h : runCSV b rows st0 = (st', e)) (hinv : stInv E T st0) :
    stInv E T st' := by
  unfold runCSV at h
  split at h
  next st1 heq =>
    exact csvFinish_inv h (csvGo_inv rows st0 st1 none heq hinv)
  next st1 e0 heq =>
    injection h with h1 h2
    subst h1
    exact csvGo_inv rows st0 st1 (some e0) heq hinv

theorem excelStep_inv {E : List JobError} {T : Nat} {b : Nat} {isLast : Bool}
    {rn : Nat} {st : PipeState} {row : Row} {st' : PipeState} {e : Option String}
    (h : excelStep b isLast rn st row = (st', e)) (hinv : stInv E T st) :
    stInv E T st' := by
  unfold excelStep at h
  split at h
  · injection h with h1 h2
    subst h1
    exact ⟨hinv.1, hinv.2⟩
  · dsimp only at h
    split at h
    · exact flushBatch_inv h ⟨hinv.1, hinv.2⟩
    · injection h with h1 h2
      subst h1
      exact ⟨hinv.1, hinv.2⟩
  · dsimp only at h
    split at h
    · exact flushBatch_inv h ⟨hinv.1, hinv.2⟩
    · injection h with h1 h2
      subst h1
      exact ⟨hinv.1, hinv.2⟩

theorem excelGo_inv {E : List JobError} {T : Nat} {b : Nat} :
    ∀ (rows : List Row) (i : Nat) (st st' : PipeState) (e : Option String),
      excelGo b rows i st = (st', e) → stInv E T st → stInv E T st' := by
  intro rows
  induction rows with
  | nil =>
    intro i st st' e h hinv
    injection h with h1 h2
    subst h1
    exact hinv
  | cons row rest ih =>
    intro i st st' e h hinv
    unfold excelGo at h
    split at h
    next st1 heq =>
      exact ih (i + 1) st1 st' e h (excelStep_inv heq hinv)
    next st1 e0 heq =>
      injection h with h1 h2
      subst h1
      exact excelStep_inv heq hinv

theorem jobInv_setTotal {E : List JobError} (j : Job) (n : Nat)
    (hj : jobInv E 0 j) : jobInv E n (setTotalJob j n) := by
  obtain ⟨hpi, hpc, herr, htot⟩ := hj
  unfold pctInv at hpc
  unfold progressInv at hpi
  rw [htot] at hpc
  simp at hpc
  rcases Nat.eq_zero_or_pos n with hn | hn
  · subst hn
    refine ⟨?_, ?_, ?_, ?_⟩ <;>
      simp [setTotalJob, setTotalUpdate, updateProgress, applyAssign,
        ProgressUpdate.empty, progressInv, pctInv, hpi, hpc, herr, htot]
  · refine ⟨?_, ?_, ?_, ?_⟩ <;>
      simp [setTotalJob, setTotalUpdate, updateProgress, applyAssign,
        ProgressUpdate.empty, progressInv, pctInv, hpi, hpc, herr, htot, hn]

theorem runExcel_inv {E : List JobError} {b : Nat} {rows : List Row}
    {st0 st' : PipeState} {e : Option String}
    (h : runExcel b rows st0 = (st', e)) (hj : jobInv E 0 st0.job)
    (ht : ∀ j ∈ st0.trace, jobInv E rows.length j) :
    stInv E rows.length st' := by
  unfold runExcel at h
  have hT := jobInv_setTotal st0.job rows.length hj
  have hst1 : stInv E rows.length
      { st0 with
        job := setTotalJob st0.job rows.length
        trace := st0.trace ++ [setTotalJob st0.job rows.length] } := by
    refine ⟨hT, ?_⟩
    intro j hjmem
    simp only [List.mem_append, List.mem_singleton] at hjmem
    rcases hjmem with hjmem | hjmem
    · exact ht j hjmem
    · subst hjmem
      exact hT
  dsimp only at h
  split at h
  next st1 heq =>
    injection h with h1 h2
    subst h1
    exact excelGo_inv rows 0 _ st1 none heq hst1
  next st1 e0 heq =>
    injection h with h1 h2
    subst h1
    exact excelGo_inv rows 0 _ st1 (some e0) heq hst1

theorem initState_inv (store : Store) (faults : List (Option String)) :
    stInv ([] : List JobError) 0
      (initState store { freshJob with status := Status.processing } faults) := by
  refine ⟨⟨rfl, rfl, rfl, rfl⟩, ?_⟩
  intro j hj
  simp [initState] at hj

/-- Every job snapshot persisted during one orchestrator run of a fresh
job satisfies: the counter-balance invariant, the percentage formula, the
error-list frame (empty, except the single system error written by the
failure path), and — on the CSV path — `total = 0`. -/
theorem processBulkUpload_trace_spec (kind : FileKind) (b m : Nat)
    (rows : List Row) (store : Store) (faults : List (Option String)) :
    ∀ j ∈ (processBulkUpload kind b m rows store faults freshJob).trace,
      progressInv j.progress ∧ pctInv j.progress ∧
      (j.errors = [] ∨ (j.status = Status.failedSt ∧
        ∃ msg, j.errors = [⟨0, "SYSTEM_ERROR", msg⟩])) ∧
      (kind = FileKind.csv → j.progress.total = 0) := by
  intro j hj
  have hst0 := initState_inv store faults
  unfold processBulkUpload at hj
  cases kind with
  | csv =>
    dsimp only at hj
    split at hj
    next st heq =>
      have hstv : stInv ([] : List JobError) 0 st := runCSV_inv heq hst0
      dsimp only [OrchResult.trace] at hj
      simp only [List.mem_cons, List.mem_append, List.mem_singleton, List.mem_nil_iff, or_false] at hj
      rcases hj with hj | hj | hj
      · subst hj
        exact ⟨rfl, rfl, Or.inl rfl, fun _ => rfl⟩
      · obtain ⟨hpi, hpc, herr, htot⟩ := hstv.2 j hj
        exact ⟨hpi, hpc, Or.inl herr, fun _ => htot⟩
      · subst hj
        obtain ⟨hpi, hpc, herr, htot⟩ := hstv.1
        exact ⟨hpi, hpc, Or.inl herr, fun _ => htot⟩
    next st msg heq =>
      have hstv : stInv ([] : List JobError) 0 st := runCSV_inv heq hst0
      dsimp only [OrchResult.trace] at hj
      simp only [List.mem_cons, List.mem_append, List.mem_singleton, List.mem_nil_iff, or_false] at hj
      rcases hj with hj | hj | hj
      · subst hj
        exact ⟨rfl, rfl, Or.inl rfl, fun _ => rfl⟩
      · obtain ⟨hpi, hpc, herr, htot⟩ := hstv.2 j hj
        exact ⟨hpi, hpc, Or.inl herr, fun _ => htot⟩
      · subst hj
        obtain ⟨hpi, hpc, herr, htot⟩ := hstv.1
        unfold addError
        split
        next hlt =>
          refine ⟨hpi, hpc, Or.inr ⟨rfl, msg, ?_⟩, fun _ => htot⟩
          simp [herr]
        next hlt =>
          exact ⟨hpi, hpc, Or.inl herr, fun _ => htot⟩
  | xlsx =>
    dsimp only at hj
    split at hj
    next st heq =>
      have hstv : stInv ([] : List JobError) rows.length st :=
        runExcel_inv heq ⟨rfl, rfl, rfl, rfl⟩ (by intro j hj; simp [initState] at hj)
      dsimp only [OrchResult.trace] at hj
      simp only [List.mem_cons, List.mem_append, List.mem_singleton, List.mem_nil_iff, or_false] at hj
      rcases hj with hj | hj | hj
      · subst hj
        exact ⟨rfl, rfl, Or.inl rfl, by intro hk; cases hk⟩
      · obtain ⟨hpi, hpc, herr, htot⟩ := hstv.2 j hj
        exact ⟨hpi, hpc, Or.inl herr, by intro hk; cases hk⟩
      · subst hj
        obtain ⟨hpi, hpc, herr, htot⟩ := hstv.1
        exact ⟨hpi, hpc, Or.inl herr, by intro hk; cases hk⟩
    next st msg heq =>
      have hstv : stInv ([] : List JobError) rows.length st :=
        runExcel_inv heq ⟨rfl, rfl, rfl, rfl⟩ (by intro j hj; simp [initState] at hj)
      dsimp only [OrchResult.trace] at hj
      simp only [List.mem_cons, List.mem_append, List.mem_singleton, List.mem_nil_iff, or_false] at hj
      rcases hj with hj | hj | hj
      · subst hj
        exact ⟨rfl, rfl, Or.inl rfl, by intro hk; cases hk⟩
      · obtain ⟨hpi, hpc, herr, htot⟩ := hstv.2 j hj
        exact ⟨hpi, hpc, Or.inl herr, by intro hk; cases hk⟩
      · subst hj
        obtain ⟨hpi, hpc, herr, htot⟩ := hstv.1
        unfold addError
        split
        next hlt =>
          refine ⟨hpi, hpc, Or.inr ⟨rfl, msg, ?_⟩, by intro hk; cases hk⟩
          simp [herr]
        next hlt =>
          exact ⟨hpi, hpc, Or.inl herr, by intro hk; cases hk⟩

theorem runInsert_none_ne_error (store : Store) (l : List String) (msg : String) :
    runInsert store l none ≠ .error msg := by
  cases l with
  | nil => simp [runInsert]
  | cons c rest =>
    simp only [runInsert]
    split <;> simp

theorem runInsert_none_dups {store : Store} {l : List String}
    {r : Store × Nat × Nat} (h : runInsert store l none = .ok r) :
    r.2.2 = (insertManyRun store l).2.2 := by
  cases l with
  | nil =>
    simp only [runInsert, Except.ok.injEq] at h
    subst h
    rfl
  | cons c rest =>
    simp only [runInsert] at h
    split at h
    next hz =>
      simp only [Except.ok.injEq] at h
      subst h
      simp [hz]
    next hz =>
      simp only [Except.ok.injEq] at h
      subst h
      rfl

/-! ### Concrete inputs used by the claims -/

/-- The §8 scenario rows `["ABCDEFGH", "ABCDEFGH", "", "XY"]`, as row
mappings under a `code` header. -/
def scenarioRows : List Row :=
  [[("code", "ABCDEFGH")], [("code", "ABCDEFGH")], [("code", "")], [("code", "XY")]]

/-- A file whose single row has an empty code cell. -/
def emptyCodeRows : List Row :=
  [[("code", "")]]

/-- Three distinct valid codes, one per row. -/
def threeCodeRows : List Row :=
  [[("code", "AAACODE1")], [("code", "BBBCODE2")], [("code", "CCCCODE3")]]

/-- A job in the terminal `completed` state. -/
def completedJob : Job :=
  { freshJob with status := Status.completed }

/-! ### Claims -/

/-- C1 (counterexample): the claimed invariant
`processed == successful + failed + duplicates` including extraction-dropped
rows counted in `failed` fails on the pipeline result: for the one-row file
whose code cell is empty, the run resolves with `processed = 0` but
`failed = 1` (the dropped row), so `processed` is not
`successful + failed + duplicates`; and the dropped row reaches no
persisted counter at all — the completed job record still shows
`failed = 0`. -/
theorem c1_result_counter_mismatch :
    (processBulkUpload FileKind.csv 1000 100 emptyCodeRows [] [] freshJob).result =
      some { processed := 0, successful := 0, failedN := 1, duplicates := 0,
             errors := [{ row := 1, code := "", errMsg := "Empty or missing code" }] } ∧
    ¬ ((0 : Nat) = 0 + 1 + 0) ∧
    (processBulkUpload FileKind.csv 1000 100 emptyCodeRows [] [] freshJob).job.status
      = Status.completed ∧
    (processBulkUpload FileKind.csv 1000 100 emptyCodeRows [] [] freshJob).job.progress.failedN
      = 0 := by
  decide

/-- C1 (amended): the persisted job counters do satisfy
`processed == successful + failed + duplicates` after every persistence
write of every run (both file kinds, any store contents, any batch size,
any write-fault schedule) — but rows dropped at extraction are excluded
from every persisted counter, and the in-memory pipeline result counts
them in `failed` without counting them in `processed`. -/
theorem c1_persisted_counters_balance (kind : FileKind) (b m : Nat)
    (rows : List Row) (store : Store) (faults : List (Option String)) (j : Job)
    (hj : j ∈ (processBulkUpload kind b m rows store faults freshJob).trace) :
    j.progress.processed
      = j.progress.successful + j.progress.failedN + j.progress.duplicates :=
  (processBulkUpload_trace_spec kind b m rows store faults j hj).1

theorem c1_persisted_counters_balance_witness :
    (processBulkUpload FileKind.csv 1000 100 scenarioRows [] [] freshJob).job.progress.processed
      = (processBulkUpload FileKind.csv 1000 100 scenarioRows [] [] freshJob).job.progress.successful
        + (processBulkUpload FileKind.csv 1000 100 scenarioRows [] [] freshJob).job.progress.failedN
        + (processBulkUpload FileKind.csv 1000 100 scenarioRows [] [] freshJob).job.progress.duplicates :=
  c1_persisted_counters_balance FileKind.csv 1000 100 scenarioRows [] []
    (processBulkUpload FileKind.csv 1000 100 scenarioRows [] [] freshJob).job
    (by decide)

/-- C2 (counterexample): for the scenario rows
`["ABCDEFGH","ABCDEFGH","","XY"]` with the source's batch size 1000 (≥ 4),
the job completes but its persisted `total` is not 4 and its persisted
`percentage` is not 100 on the CSV path (both are 0, since the CSV
pipeline never sets `total`); the spreadsheet path also never reaches
`percentage = 100` (it ends at 0 because the final flush is skipped when
the last row throws the length error). -/
theorem c2_scenario_counterexample :
    (processBulkUpload FileKind.csv 1000 100 scenarioRows [] [] freshJob).job.status
      = Status.completed ∧
    ¬ (processBulkUpload FileKind.csv 1000 100 scenarioRows [] [] freshJob).job.progress.total
      = 4 ∧
    ¬ (processBulkUpload FileKind.csv 1000 100 scenarioRows [] [] freshJob).job.progress.percentage
      = 100 ∧
    ¬ (processBulkUpload FileKind.xlsx 1000 100 scenarioRows [] [] freshJob).job.progress.percentage
      = 100 := by
  decide

/-- C2 (amended): for the scenario rows with batch size 1000 (≥ 4), the
CSV run terminates with status `completed` and result
`successful = 1, duplicates = 1, failed = 2` (with `processed = 2`), but
the persisted progress is `total = 0, percentage = 0` with
`failed = 0`; the spreadsheet run sets `total = 4` but the length error
thrown by the last row suppresses the final flush, so it completes with
result `successful = 0, duplicates = 0, failed = 2` and persisted
`percentage = 0`. -/
theorem c2_scenario_actual :
    ((processBulkUpload FileKind.csv 1000 100 scenarioRows [] [] freshJob).job.status
        = Status.completed ∧
      (processBulkUpload FileKind.csv 1000 100 scenarioRows [] [] freshJob).result =
        some { processed := 2, successful := 1, failedN := 2, duplicates := 1,
               errors := [{ row := 3, code := "", errMsg := "Empty or missing code" },
                          { row := 4, code := "", errMsg := lengthErrMsg }] } ∧
      (processBulkUpload FileKind.csv 1000 100 scenarioRows [] [] freshJob).job.progress =
        { total := 0, processed := 2, successful := 1, failedN := 0,
          duplicates := 1, percentage := 0 }) ∧
    ((processBulkUpload FileKind.xlsx 1000 100 scenarioRows [] [] freshJob).job.status
        = Status.completed ∧
      (processBulkUpload FileKind.xlsx 1000 100 scenarioRows [] [] freshJob).result =
        some { processed := 0, successful := 0, failedN := 2, duplicates := 0,
               errors := [{ row := 4, code := "", errMsg := "Empty or missing code" },
                          { row := 5, code := "", errMsg := lengthErrMsg }] } ∧
      (processBulkUpload FileKind.xlsx 1000 100 scenarioRows [] [] freshJob).job.progress =
        { total := 4, processed := 0, successful := 0, failedN := 0,
          duplicates := 0, percentage := 0 }) := by
  decide

/-- C3 (divergence witness): a cancel request that lands between two
batches of a running CSV job is never observed by the pipeline.  For a
two-row job with batch size 1, cancelled after the first flush: the
persisted status becomes `cancelled` with `processed = 1`, yet the next
flush still grows the persisted counters to `processed = 2`, and the final
save overwrites the status with `completed` — the job does not end
`cancelled` and its counters do not stop growing, because the pipeline
never re-reads the persisted status between batches. -/
theorem c3_cancellation_ignored :
    (runCSVCancelBetween 1 [[("code", "AAACODE1")]] [[("code", "BBBCODE2")]]
        [] freshJob).length = 5 ∧
    (runCSVCancelBetween 1 [[("code", "AAACODE1")]] [[("code", "BBBCODE2")]]
        [] freshJob).get? 2 =
      some { status := Status.cancelled,
             progress := { total := 0, processed := 1, successful := 1,
                           failedN := 0, duplicates := 0, percentage := 0 } } ∧
    (runCSVCancelBetween 1 [[("code", "AAACODE1")]] [[("code", "BBBCODE2")]]
        [] freshJob).get? 3 =
      some { status := Status.cancelled,
             progress := { total := 0, processed := 2, successful := 2,
                           failedN := 0, duplicates := 0, percentage := 0 } } ∧
    (runCSVCancelBetween 1 [[("code", "AAACODE1")]] [[("code", "BBBCODE2")]]
        [] freshJob).get? 4 =
      some { status := Status.completed,
             progress := { total := 0, processed := 2, successful := 2,
                           failedN := 0, duplicates := 0, percentage := 0 } } := by
  decide

/-- C4 (counterexample): a non-uniqueness per-entry write failure does not
increment the failure count and does not leave the job processing: with a
storage-outage fault on the second of three single-row batches, the run
rejects, the job ends `failed` with `failed = 0` in its persisted
progress, the only recorded error is the single row-0 `SYSTEM_ERROR`
entry, and the third batch is never written (the store holds only the
first code) — contradicting \"without aborting the job, which still
reaches a terminal state with the remaining batches processed\". -/
theorem c4_other_write_error_counterexample :
    (processBulkUpload FileKind.csv 1 100 threeCodeRows []
        [none, some "storage outage"] freshJob).result = none ∧
    (processBulkUpload FileKind.csv 1 100 threeCodeRows []
        [none, some "storage outage"] freshJob).job.status = Status.failedSt ∧
    (processBulkUpload FileKind.csv 1 100 threeCodeRows []
        [none, some "storage outage"] freshJob).job.progress.failedN = 0 ∧
    (processBulkUpload FileKind.csv 1 100 threeCodeRows []
        [none, some "storage outage"] freshJob).job.errors =
      [{ row := 0, code := "SYSTEM_ERROR",
         errMsg := "Batch processing error: storage outage" }] ∧
    (processBulkUpload FileKind.csv 1 100 threeCodeRows []
        [none, some "storage outage"] freshJob).store = ["AAACODE1"] := by
  decide

/-- C4 (amended): entries rejected for uniqueness are counted as
duplicates, never as failures — a recovered batch always reports
`failed = 0` and its duplicate count is the pre-filtered duplicates plus
the duplicate-key write errors; any other error of the bulk write is
rethrown as `Batch processing error: ...` and aborts the batch (and hence,
as the counterexample shows, the whole job). -/
theorem c4_writer_classification (store : Store) (codes : List BatchItem)
    (job : Job) :
    (∀ (stats : BatchStats) (es : List JobError) (store' : Store) (job' : Job),
      processBatch store codes job none = .ok (stats, es, store', job') →
      stats.failedN = 0 ∧
      stats.duplicates = (partitionBatch store codes).2.1
        + (insertManyRun store (partitionBatch store codes).1).2.2) ∧
    (∀ msg : String, (partitionBatch store codes).1 ≠ [] →
      processBatch store codes job (some msg) =
        .error ("Batch processing error: " ++ msg)) := by
  constructor
  · intro stats es store' job' h
    have hfail := (processBatch_ok_spec h).2.1
    refine ⟨hfail, ?_⟩
    simp only [processBatch] at h
    split at h
    next msg heq => exact absurd heq (runInsert_none_ne_error _ _ _)
    next r heq =>
      have hd := runInsert_none_dups heq
      simp only [Except.ok.injEq, Prod.mk.injEq] at h
      obtain ⟨hstats, _, _, _⟩ := h
      subst hstats
      simp [hd]
  · intro msg hne
    rcases hl : (partitionBatch store codes).1 with _ | ⟨c, rest⟩
    · exact absurd hl hne
    · simp [processBatch, hl, runInsert]

theorem c4_writer_classification_witness :
    processBatch [] [{ code := "AAACODE1", rowNumber := 1 }] freshJob
        (some "storage outage") =
      .error ("Batch processing error: " ++ "storage outage") :=
  (c4_writer_classification [] [{ code := "AAACODE1", rowNumber := 1 }] freshJob).2
    "storage outage" (by decide)

/-- C5: a valid identifier occurring exactly twice in one batch, absent
from the store beforehand, is not pre-filtered — both occurrences are
queued for insertion — and the write yields exactly one success and one
duplicate (the second occurrence is rejected by the uniqueness constraint
and reclassified), with no failure, regardless of which occurrence comes
first (the two row positions are arbitrary): the batch reports
`{processed = 2, successful = 1, failed = 0, duplicates = 1}` and the
store gains the code exactly once. -/
theorem c5_intra_batch_duplicate (c : String) (r1 r2 : Nat) (store : Store)
    (job : Job) (h : c ∉ store) :
    partitionBatch store [{ code := c, rowNumber := r1 }, { code := c, rowNumber := r2 }]
      = ([c, c], 0, []) ∧
    (processBatch store
        [{ code := c, rowNumber := r1 }, { code := c, rowNumber := r2 }] job none).map
        (fun r => (r.1, r.2.1, r.2.2.1)) =
      .ok ({ processed := 2, successful := 1, failedN := 0, duplicates := 1 },
           [], c :: store) := by
  have hpart : partitionBatch store
      [{ code := c, rowNumber := r1 }, { code := c, rowNumber := r2 }]
      = ([c, c], 0, []) := by
    simp [partitionBatch, h]
  have him : insertManyRun store [c, c] = (c :: store, 1, 1) := by
    simp [insertManyRun, h]
  have hri : runInsert store [c, c] none = .ok (c :: store, 1, 1) := by
    simp [runInsert, him]
  refine ⟨hpart, ?_⟩
  simp [processBatch, hpart, hri, Except.map]

theorem c5_intra_batch_duplicate_witness :
    partitionBatch [] [{ code := "ABCDEFGH", rowNumber := 1 },
        { code := "ABCDEFGH", rowNumber := 2 }] = (["ABCDEFGH", "ABCDEFGH"], 0, []) ∧
    (processBatch [] [{ code := "ABCDEFGH", rowNumber := 1 },
        { code := "ABCDEFGH", rowNumber := 2 }] freshJob none).map
        (fun r => (r.1, r.2.1, r.2.2.1)) =
      .ok ({ processed := 2, successful := 1, failedN := 0, duplicates := 1 },
           [], ["ABCDEFGH"]) :=
  c5_intra_batch_duplicate "ABCDEFGH" 1 2 [] freshJob (by decide)

theorem validateCandidate_some (c : String) :
    validateCandidate (some c) =
      if (jsTrim c).length < 3 || (jsTrim c).length > 100 then
        ExtractResult.lengthError (jsTrim c)
      else ExtractResult.extracted (jsTrim c) := rfl

/-- C6 (counterexample): a whitespace-only candidate is truthy in JS, so
it passes the `if (!code)` guard and only then is trimmed: for the row
whose `code` cell is a single space, the trimmed candidate is empty, yet
extraction fails with the length error (`InvalidCodeLength`), not with
`EmptyOrMissingCode` — refuting \"fails with EmptyOrMissingCode exactly
when the candidate is empty after trimming\". -/
theorem c6_whitespace_counterexample :
    jsTrim " " = "" ∧
    extractCode [("code", " ")] = ExtractResult.lengthError "" ∧
    ¬ extractCode [("code", " ")] = ExtractResult.missing := by
  decide

/-- C6 (amended): extraction fails with `EmptyOrMissingCode` exactly when
no candidate cell is truthy (missing or empty before trimming); a truthy
candidate is trimmed and fails with `InvalidCodeLength` exactly when its
trimmed length is outside [3,100] (a whitespace-only candidate trims to
length 0 and lands here); 2- and 101-character identifiers are rejected
while 3- and 100-character identifiers are accepted; and either failure
only records a per-row error and drops the row — the CSV row handler
returns without flushing or rejecting, leaving the accumulated batch
untouched. -/
theorem c6_extraction_behavior :
    (∀ row : Row, extractCode row = ExtractResult.missing ↔ candidateOf row = none) ∧
    (∀ c : String, validateCandidate (some c) = ExtractResult.lengthError (jsTrim c) ↔
      ((jsTrim c).length < 3 ∨ (jsTrim c).length > 100)) ∧
    (∀ c : String, validateCandidate (some c) = ExtractResult.extracted (jsTrim c) ↔
      (3 ≤ (jsTrim c).length ∧ (jsTrim c).length ≤ 100)) ∧
    extractCode [("code", "ab")] = ExtractResult.lengthError "ab" ∧
    extractCode [("code", "abc")] = ExtractResult.extracted "abc" ∧
    extractCode [("code", String.mk (List.replicate 100 'a'))]
      = ExtractResult.extracted (String.mk (List.replicate 100 'a')) ∧
    extractCode [("code", String.mk (List.replicate 101 'a'))]
      = ExtractResult.lengthError (String.mk (List.replicate 101 'a')) ∧
    (∀ (b : Nat) (st : PipeState) (row : Row) (t : String),
      extractCode row = ExtractResult.lengthError t →
      csvStep b st row =
        ({ st with
            rowNumber := st.rowNumber + 1
            failedCount := st.failedCount + 1
            errors := st.errors ++ [{ row := st.rowNumber + 1, code := "", errMsg := lengthErrMsg }] },
         none)) ∧
    (∀ (b : Nat) (st : PipeState) (row : Row),
      extractCode row = ExtractResult.missing → st.codes.length < b →
      csvStep b st row =
        ({ st with
            rowNumber := st.rowNumber + 1
            failedCount := st.failedCount + 1
            errors := st.errors ++ [{ row := st.rowNumber + 1, code := "", errMsg := "Empty or missing code" }] },
         none)) := by
  refine ⟨?_, ?_, ?_, by decide, by decide, by decide, by decide, ?_, ?_⟩
  · intro row
    unfold extractCode
    cases hc : candidateOf row with
    | none => simp [validateCandidate]
    | some c =>
      rw [validateCandidate_some]
      constructor
      · intro hax
        split at hax <;> cases hax
      · intro hax
        cases hax
  · intro c
    rw [validateCandidate_some]
    by_cases hlen : (jsTrim c).length < 3 ∨ (jsTrim c).length > 100
    · rw [if_pos (by simpa using hlen)]
      simp [hlen]
    · rw [if_neg (by simpa using hlen)]
      constructor
      · intro hax
        cases hax
      · intro hax
        exact absurd hax hlen
  · intro c
    rw [validateCandidate_some]
    by_cases hlen : (jsTrim c).length < 3 ∨ (jsTrim c).length > 100
    · rw [if_pos (by simpa using hlen)]
      constructor
      · intro hax
        cases hax
      · intro hax
        omega
    · rw [if_neg (by simpa using hlen)]
      push_neg at hlen
      constructor
      · intro _
        omega
      · intro _
        rfl
  · intro b st row t hrow
    unfold csvStep
    rw [hrow]
  · intro b st row hrow hlen
    unfold csvStep
    rw [hrow]
    dsimp only
    rw [if_neg (by simpa using Nat.not_le.mpr hlen)]

theorem c6_extraction_behavior_witness :
    (extractCode [("other", "hello")] = ExtractResult.missing ↔
      candidateOf [("other", "hello")] = none) ∧
    csvStep 1000 (initState [] freshJob []) [("code", "XY")] =
      ({ initState [] freshJob [] with
          rowNumber := 1
          failedCount := 1
          errors := [{ row := 1, code := "", errMsg := lengthErrMsg }] }, none) :=
  ⟨c6_extraction_behavior.1 [("other", "hello")],
   c6_extraction_behavior.2.2.2.2.2.2.2.1 1000 (initState [] freshJob [])
     [("code", "XY")] "XY" (by decide)⟩

/-- C7: a cancel request against a job whose status is `completed` or
`failed` is rejected with the invalid-state error
`Cannot cancel <status> job` and returns the job record entirely
unchanged (no field is written — the handler returns before any
mutation); the request is accepted exactly when the status is `pending`
or `processing`. -/
theorem c7_cancel_terminal_rejected (j : Job) :
    ((j.status = Status.completed ∨ j.status = Status.failedSt) →
      cancelBulkUpload (some j) =
        (CancelOutcome.invalidState ("Cannot cancel " ++ j.status.name ++ " job"),
         some j)) ∧
    ((cancelBulkUpload (some j)).1 = CancelOutcome.accepted ↔
      (j.status = Status.pending ∨ j.status = Status.processing)) := by
  constructor
  · intro h
    have hnp : ¬ (j.status = Status.pending ∨ j.status = Status.processing) := by
      rcases h with h | h <;> rw [h] <;> simp
    simp [cancelBulkUpload, hnp]
  · constructor
    · intro h
      by_contra hnp
      simp [cancelBulkUpload, hnp] at h
    · intro h
      simp [cancelBulkUpload, h]

theorem c7_cancel_terminal_rejected_witness :
    cancelBulkUpload (some completedJob) =
      (CancelOutcome.invalidState
        ("Cannot cancel " ++ completedJob.status.name ++ " job"),
       some completedJob) :=
  (c7_cancel_terminal_rejected completedJob).1 (Or.inl rfl)

/-- C8: after every persistence write of every run from a fresh job (both
file kinds, any rows, store, batch size and fault schedule), the persisted
percentage equals `round(processed / total * 100)` whenever `total > 0`,
and equals 0 whenever `total = 0`. -/
theorem c8_percentage_formula (kind : FileKind) (b m : Nat) (rows : List Row)
    (store : Store) (faults : List (Option String)) (j : Job)
    (hj : j ∈ (processBulkUpload kind b m rows store faults freshJob).trace) :
    j.progress.percentage =
      if j.progress.total > 0 then jsRound100 j.progress.processed j.progress.total
      else 0 :=
  (processBulkUpload_trace_spec kind b m rows store faults j hj).2.1

theorem c8_percentage_formula_witness :
    (processBulkUpload FileKind.xlsx 1000 100 scenarioRows [] [] freshJob).job.progress.percentage =
      if (processBulkUpload FileKind.xlsx 1000 100 scenarioRows [] [] freshJob).job.progress.total > 0 then
        jsRound100
          (processBulkUpload FileKind.xlsx 1000 100 scenarioRows [] [] freshJob).job.progress.processed
          (processBulkUpload FileKind.xlsx 1000 100 scenarioRows [] [] freshJob).job.progress.total
      else 0 :=
  c8_percentage_formula FileKind.xlsx 1000 100 scenarioRows [] []
    (processBulkUpload FileKind.xlsx 1000 100 scenarioRows [] [] freshJob).job
    (by decide)

/-- C9: on the CSV path the persisted `total` is never updated from its
initial 0 — only the spreadsheet path sets it — so after every
persistence write of a CSV run, including completion, the persisted
`total` and `percentage` are both 0, no matter how many rows were
processed. -/
theorem c9_csv_total_never_set (b m : Nat) (rows : List Row) (store : Store)
    (faults : List (Option String)) (j : Job)
    (hj : j ∈ (processBulkUpload FileKind.csv b m rows store faults freshJob).trace) :
    j.progress.total = 0 ∧ j.progress.percentage = 0 := by
  obtain ⟨_, hpc, _, htot⟩ :=
    processBulkUpload_trace_spec FileKind.csv b m rows store faults j hj
  have h0 := htot rfl
  refine ⟨h0, ?_⟩
  unfold pctInv at hpc
  rw [h0] at hpc
  simpa using hpc

theorem c9_csv_total_never_set_witness :
    (processBulkUpload FileKind.csv 1000 100 scenarioRows [] [] freshJob).job.progress.total = 0 ∧
    (processBulkUpload FileKind.csv 1000 100 scenarioRows [] [] freshJob).job.progress.percentage = 0 :=
  c9_csv_total_never_set 1000 100 scenarioRows [] []
    (processBulkUpload FileKind.csv 1000 100 scenarioRows [] [] freshJob).job
    (by decide)

/-- C10: row-level and batch-entry errors live only in the in-memory
result — after every persistence write of every run from a fresh job, the
persisted error list is empty, except that the whole-job failure path
appends the single row-0 `SYSTEM_ERROR` entry (on a `failed` snapshot);
no `Empty or missing code`, length or `Duplicate code` entry is ever
persisted. -/
theorem c10_errors_not_persisted (kind : FileKind) (b m : Nat)
    (rows : List Row) (store : Store) (faults : List (Option String)) (j : Job)
    (hj : j ∈ (processBulkUpload kind b m rows store faults freshJob).trace) :
    j.errors = [] ∨ (j.status = Status.failedSt ∧
      ∃ msg, j.errors = [{ row := 0, code := "SYSTEM_ERROR", errMsg := msg }]) :=
  (processBulkUpload_trace_spec kind b m rows store faults j hj).2.2.1

theorem c10_errors_not_persisted_witness :
    (processBulkUpload FileKind.csv 1000 100 scenarioRows [] [] freshJob).job.errors = [] ∨
    ((processBulkUpload FileKind.csv 1000 100 scenarioRows [] [] freshJob).job.status
        = Status.failedSt ∧
      ∃ msg, (processBulkUpload FileKind.csv 1000 100 scenarioRows [] [] freshJob).job.errors
        = [{ row := 0, code := "SYSTEM_ERROR", errMsg := msg }]) :=
  c10_errors_not_persisted FileKind.csv 1000 100 scenarioRows [] []
    (processBulkUpload FileKind.csv 1000 100 scenarioRows [] [] freshJob).job
    (by decide)

end Anginat
